import Mathlib

set_option maxRecDepth 8000

/-!
Shallow embedding of `src/step.py` from the `digitalhub-sdk-wrapper-kfp`
repository, together with proofs about the output-export protocol it
implements: the path-traversal guard `_is_safe_path`, the sandboxed file
writer `_write_output`, the output normalizer inside `execute_step`, the
polling wait loop, and the overall control flow of `execute_step`.

Modelling conventions:
- POSIX absolute paths are lists of path segments (`/tmp` is `["tmp"]`);
  a raw path (as produced by `os.path.join` before normalization) may
  contain `".."`, `"."` and `""` segments.  `os.path.abspath` on an
  absolute path is lexical normalization (`os.path.normpath`), and
  `os.path.commonpath` on two cleaned absolute paths is their longest
  common segment run.
- The filesystem is a map from absolute paths to file contents.  The
  artifacts directory `/tmp` exists, is a directory, and initially
  contains no subdirectories, so `open(p, "w")` succeeds exactly for
  paths whose parent directory is `/tmp` itself; opening the directory
  raises `IsADirectoryError` and a path with a missing parent raises
  `FileNotFoundError`.
- Python exceptions are values of `PyExc`; a fallible operation returns
  `Except PyExc`.  `exit(1)` and an uncaught exception both terminate
  the process with exit code 1.
- The backend SDK (`digitalhub`) is an explicit environment `Env` of
  functions supplied by each theorem.
-/

namespace KfpStep

abbrev Seg := String

/-- An absolute POSIX path, as its list of segments (`/tmp` is `["tmp"]`).
Possibly unnormalized: segments may include `".."`, `"."`, `""`. -/
abbrev AbsPath := List Seg

/-- A raw path or key string, as passed to `os.path.join`: an
absolute-or-relative flag plus the segments obtained by splitting on `/`. -/
structure RawPath where
  isAbs : Bool
  segs : List Seg
deriving DecidableEq

/-- `KFP_ARTIFACTS_DIR = "/tmp"` (line 16 of `step.py`). -/
def KFP_ARTIFACTS_DIR : AbsPath := ["tmp"]

/-- Split a character list on `'/'`, keeping empty gaps, exactly as
Python `str.split("/")` does (`"" → [""]`, `"a//b" → ["a","","b"]`). -/
def splitSegs : List Char → List (List Char)
  | [] => [[]]
  | c :: cs =>
    if c = '/' then [] :: splitSegs cs
    else
      match splitSegs cs with
      | [] => [[c]]
      | s :: rest => (c :: s) :: rest

/-- Parse a Python path/key string into a `RawPath` (leading `/` means
absolute, remaining text split on `/`). -/
def parseKey (s : String) : RawPath :=
  match s.data with
  | '/' :: rest => ⟨true, (splitSegs rest).map List.asString⟩
  | cs => ⟨false, (splitSegs cs).map List.asString⟩

/-- `os.path.join(base, key)` for an absolute `base`: if `key` is
absolute it wins, otherwise the segments are concatenated. -/
def os_path_join (base : AbsPath) (key : RawPath) : AbsPath :=
  if key.isAbs then key.segs else base ++ key.segs

/-- One step of lexical path normalization: drop `""` and `"."`,
resolve `".."` against the segment stack (at the root, `".."` is
dropped, as `os.path.normpath("/..") == "/"`). -/
def normStep (stack : List Seg) (s : Seg) : List Seg :=
  if s = "" ∨ s = "." then stack
  else if s = ".." then stack.dropLast
  else stack ++ [s]

/-- `os.path.abspath` on an absolute path: lexical normalization. -/
def abspath (p : AbsPath) : AbsPath := p.foldl normStep []

/-- `os.path.commonpath` on two cleaned absolute paths: the longest
common run of leading segments. -/
def commonpath : AbsPath → AbsPath → AbsPath
  | [], _ => []
  | _ :: _, [] => []
  | a :: as, b :: bs => if a = b then a :: commonpath as bs else []

/-- `_is_safe_path(base, filepath, is_symlink)` (lines 193–196 of
`step.py`).  `links` models `os.path.realpath`'s symlink resolution; it
is consulted only when `is_symlink` is true.  In the source the third
argument defaults to `False`, and every call site uses that default. -/
def _is_safe_path (links : AbsPath → AbsPath) (base : AbsPath) (filepath : AbsPath)
    (is_symlink : Bool) : Bool :=
  let resolved := if is_symlink then links filepath else abspath filepath
  base == commonpath base resolved

/-- Symlink-free resolution environment (identity `realpath`). -/
def noLinks : AbsPath → AbsPath := fun p => p

/-- The filesystem: a map from absolute paths to file contents. -/
abbrev FS := AbsPath → Option String

def emptyFS : FS := fun _ => none

/-- Writing (creating or fully truncating) the file at `p`. -/
def fsWrite (fs : FS) (p : AbsPath) (v : String) : FS :=
  fun q => if q = p then some v else fs q

/-- The Python exceptions this program can raise or propagate. -/
inductive PyExc where
  | typeError
  | keyError
  | attributeError
  | isADirectoryError
  | fileNotFoundError
  | other (msg : String)
deriving DecidableEq

/-- Logger events emitted by `_write_output`. -/
inductive LogEv where
  | warnPathTraversal (path : AbsPath) (key : RawPath)
  | infoWriting (path : AbsPath) (value : String)
  | debugStat (path : AbsPath) (size : Nat)
deriving DecidableEq

/-- `open(p, "w")` followed by `fp.write(v)` in a world where
`KFP_ARTIFACTS_DIR` exists, is a directory, and has no subdirectories:
opening the directory itself raises `IsADirectoryError`; a path whose
parent directory is missing raises `FileNotFoundError`; otherwise the
file is created (or truncated) with exactly the bytes of `v`. -/
def openWrite (fs : FS) (p : AbsPath) (v : String) : Except PyExc FS :=
  if p = KFP_ARTIFACTS_DIR then .error .isADirectoryError
  else if KFP_ARTIFACTS_DIR.length + 1 = p.length ∧
      p.take KFP_ARTIFACTS_DIR.length = KFP_ARTIFACTS_DIR then
    .ok (fsWrite fs p v)
  else .error .fileNotFoundError

/-- `_write_output(key, value)` (lines 178–190 of `step.py`): join the
key onto `KFP_ARTIFACTS_DIR`, reject unsafe paths with a warning (and
return), otherwise open/truncate/write the file and stat it.  Returns
the resulting filesystem (or the propagated exception) together with
the emitted log events. -/
def _write_output (fs : FS) (key : RawPath) (value : String) :
    Except PyExc FS × List LogEv :=
  let path := os_path_join KFP_ARTIFACTS_DIR key
  if !(_is_safe_path noLinks KFP_ARTIFACTS_DIR path false) then
    (.ok fs, [.warnPathTraversal path key])
  else
    let rpath := abspath path
    match openWrite fs rpath value with
    | .error e => (.error e, [.infoWriting rpath value])
    | .ok fs1 => (.ok fs1, [.infoWriting rpath value, .debugStat rpath value.utf8ByteSize])

/-- `try: _write_output(key, value) except Exception: pass` — the
swallowing wrapper used by `execute_step` (lines 146–150 and 165–170):
on an exception the filesystem is left as it was. -/
def try_write_output (fs : FS) (key : RawPath) (value : String) : FS :=
  match (_write_output fs key value).1 with
  | .ok f => f
  | .error _ => fs

/-- `digitalhub.entities._commons.enums.State.COMPLETED.value`. -/
def State.COMPLETED : String := "COMPLETED"

/-- `State.ERROR.value`. -/
def State.ERROR : String := "ERROR"

/-- `State.STOPPED.value`. -/
def State.STOPPED : String := "STOPPED"

/-- `State.RUNNING.value` (a non-terminal state). -/
def State.RUNNING : String := "RUNNING"

/-- `_is_finished(state)` (lines 19–33 of `step.py`):
`state in (State.COMPLETED.value, State.ERROR.value, State.STOPPED.value)`. -/
def _is_finished (state : String) : Bool :=
  state == State.COMPLETED || state == State.ERROR || state == State.STOPPED

/-- `_is_complete(state)` (lines 36–50 of `step.py`). -/
def _is_complete (state : String) : Bool :=
  state == State.COMPLETED

/-- An output value of `run.outputs()`, polymorphic over the Python
shapes distinguished on line 163 of `step.py`: a `str`, an `Entity`
carrying a `key` attribute, a `dict` (whose `"key"` field is looked
up), or a non-subscriptable value such as the `int` 42. -/
inductive OutVal where
  | pystr (s : String)
  | entity (key : String)
  | pydict (fields : List (String × String))
  | pyint (n : Int)
deriving DecidableEq

/-- The value expression on line 163 of `step.py`:
`val if isinstance(val, str) else val.key if isinstance(val, Entity) else val["key"]`.
A `dict` without a `"key"` field raises `KeyError`; subscripting a
non-subscriptable value such as an `int` raises `TypeError`. -/
def normalize_value : OutVal → Except PyExc String
  | .pystr s => .ok s
  | .entity k => .ok k
  | .pydict fields =>
    match fields.lookup "key" with
    | some v => .ok v
    | none => .error .keyError
  | .pyint _ => .error .typeError

/-- Whether a value has one of the three recognized shapes (the
normalization of line 163 does not raise on it). -/
def recognized (v : OutVal) : Bool :=
  match normalize_value v with
  | .ok _ => true
  | .error _ => false

/-- The `results` dict built by the loop on lines 160–163 of `step.py`:
for each `(prop, val)` pair in order, the entry
`("entity_" + prop, normalized val)`; the first unrecognized value
raises out of the loop. -/
def build_results : List (String × OutVal) → Except PyExc (List (String × String))
  | [] => .ok []
  | (prop, val) :: rest =>
    match normalize_value val with
    | .error e => .error e
    | .ok v =>
      match build_results rest with
      | .error e => .error e
      | .ok r => .ok (("entity_" ++ prop, v) :: r)

/-- A `_write_output` invocation made by `execute_step` (key and value),
recorded in order. -/
structure WriteAttempt where
  key : RawPath
  value : String
deriving DecidableEq

/-- The loop on lines 165–170 of `step.py`: each `results` entry is
written with `_write_output` inside `try/except` (failures swallowed). -/
def write_results (fs : FS) : List (String × String) → FS × List WriteAttempt
  | [] => (fs, [])
  | (k, v) :: rest =>
    let fs1 := try_write_output fs (parseKey k) v
    let step := write_results fs1 rest
    (step.1, ⟨parseKey k, v⟩ :: step.2)

/-- A remote run handle, with the attributes `execute_step` consumes:
`id`, `status.state`, the stream of states delivered by successive
`refresh()` calls, whether `hasattr(run, "outputs")`, and the
`outputs()` mapping available once the run is finished. -/
structure RunHandle where
  id : String
  state : String
  refreshes : List String
  hasOutputs : Bool
  outputs : List (String × OutVal)
deriving DecidableEq

/-- Events of the wait loop (lines 140–143 of `step.py`):
`time.sleep(5)` and `run = run.refresh()` observing a new state. -/
inductive WaitEv where
  | sleepSecs (n : Nat)
  | refreshed (s : String)
deriving DecidableEq

/-- The wait loop `while not _is_finished(run.status.state): sleep(5);
run = run.refresh()` — given the current state and the stream of states
the backend will deliver on successive refreshes, it returns the
terminal state reached together with its sleep/refresh trace, or `none`
when the stream is exhausted before a terminal state is observed (the
Python loop would simply keep polling forever). -/
def wait_loop : String → List String → Option (String × List WaitEv)
  | s, refreshes =>
    if _is_finished s then some (s, [])
    else
      match refreshes with
      | [] => none
      | s1 :: rest =>
        (wait_loop s1 rest).map fun q => (q.1, .sleepSecs 5 :: .refreshed s1 :: q.2)

/-- The `exec_kwargs` dict assembled on lines 99–111 of `step.py`: the
(already-parsed) `jsonprops` JSON object, with `inputs`, `outputs` and
`parameters` entries added when the corresponding argument is not
`None`.  The kwargs are only forwarded to the SDK `run` call. -/
structure ExecKwargs where
  jsonprops : List (String × String)
  inputs : Option (List (String × String))
  outputs : Option (List (String × String))
  parameters : Option (List (String × String))
deriving DecidableEq

def build_exec_kwargs (jsonprops : Option (List (String × String)))
    (inputs outputs parameters : Option (List (String × String))) : ExecKwargs :=
  ⟨jsonprops.getD [], inputs, outputs, parameters⟩

/-- A resolved function entity: its `run(action, **kwargs)` method. -/
structure FunctionEntity where
  run : String → ExecKwargs → Except PyExc RunHandle

/-- A resolved workflow entity: its `run(action, **kwargs)` method. -/
structure WorkflowEntity where
  run : String → ExecKwargs → Except PyExc RunHandle

/-- A loaded project: `get_function` / `get_workflow` by name and
optional entity id (either may raise). -/
structure Project where
  get_function : String → Option String → Except PyExc FunctionEntity
  get_workflow : String → Option String → Except PyExc WorkflowEntity

/-- The backend SDK environment: `dh.get_project`. -/
structure Env where
  get_project : String → Except PyExc Project

/-- On line 133 of `step.py` the source calls `.run` on the local
variable `workflow`, which still holds the workflow NAME string — the
entity resolved on lines 127–131 was assigned to the variable
`function` and is never used.  A Python `str` has no `run` attribute,
so this call raises `AttributeError`, whatever the resolved entity
would have done. -/
def str_run (_name : String) (_action : String) (_kwargs : ExecKwargs) :
    Except PyExc RunHandle :=
  .error .attributeError

/-- Outcome of the resolution-and-launch phase of `execute_step`
(lines 96–137): no entity given (`exit(1)`), an uncaught exception, or
a run handle obtained from the SDK. -/
inductive ResolveResult where
  | noEntity
  | raised (e : PyExc)
  | launched (run : RunHandle)

/-- Lines 96–137 of `execute_step`: load the project, then the
function branch (`action` is concatenated into a log string first, so a
missing action raises `TypeError` before any lookup), or the workflow
branch (where the resolved entity is fetched but `.run` is invoked on
the name string, see `str_run`), or `exit(1)` when neither a function
nor a workflow is given. -/
def resolve_and_launch (env : Env) (project : String)
    (function : Option String) (function_id : Option String)
    (workflow : Option String) (workflow_id : Option String)
    (action : Option String) (kwargs : ExecKwargs) : ResolveResult :=
  match env.get_project project with
  | .error e => .raised e
  | .ok proj =>
    match function with
    | some fname =>
      match action with
      | none => .raised .typeError
      | some act =>
        match proj.get_function fname function_id with
        | .error e => .raised e
        | .ok fent =>
          match fent.run act kwargs with
          | .error e => .raised e
          | .ok run => .launched run
    | none =>
      match workflow with
      | some wname =>
        let act := (action.getD "pipeline")
        match proj.get_workflow wname workflow_id with
        | .error e => .raised e
        | .ok _went =>
          match str_run wname act kwargs with
          | .error e => .raised e
          | .ok run => .launched run
      | none => .noEntity

/-- The observable outcome of one `execute_step` process: normal return
(process exit code 0), `exit(1)` (code 1), an uncaught exception (the
interpreter exits with code 1), or divergence of the wait loop.  Each
terminating outcome carries the final filesystem and the ordered list
of `_write_output` invocations. -/
inductive StepOutcome where
  | normalExit (fs : FS) (attempts : List WriteAttempt)
  | exitOne (fs : FS) (attempts : List WriteAttempt)
  | uncaught (e : PyExc) (fs : FS) (attempts : List WriteAttempt)
  | hangs

def StepOutcome.finalFs : StepOutcome → Option FS
  | .normalExit fs _ => some fs
  | .exitOne fs _ => some fs
  | .uncaught _ fs _ => some fs
  | .hangs => none

def StepOutcome.writeAttempts : StepOutcome → List WriteAttempt
  | .normalExit _ a => a
  | .exitOne _ a => a
  | .uncaught _ _ a => a
  | .hangs => []

/-- The process exit code of an outcome (Python exits 1 both on
`exit(1)` and on an uncaught exception). -/
def process_exit_code : StepOutcome → Option Nat
  | .normalExit _ _ => some 0
  | .exitOne _ _ => some 1
  | .uncaught _ _ _ => some 1
  | .hangs => none

/-- Lines 145–175 of `execute_step`, entered once the wait loop has
produced the terminal state `fin`: write `run_id` (exceptions
swallowed), then — only when the state is COMPLETED and the run has an
`outputs` attribute — normalize the outputs (an unrecognized shape
raises out of `execute_step`) and write each entry (write failures
swallowed); a non-COMPLETED terminal state ends in `exit(1)`. -/
def after_wait (run : RunHandle) (fin : String) (fs : FS) : StepOutcome :=
  let fs1 := try_write_output fs (parseKey "run_id") run.id
  let att1 : List WriteAttempt := [⟨parseKey "run_id", run.id⟩]
  if _is_complete fin then
    if run.hasOutputs then
      match build_results run.outputs with
      | .error e => .uncaught e fs1 att1
      | .ok results =>
        let w := write_results fs1 results
        .normalExit w.1 (att1 ++ w.2)
    else .normalExit fs1 att1
  else .exitOne fs1 att1

/-- `execute_step` (lines 53–175 of `step.py`) as a function of the SDK
environment, the CLI-level arguments, and the initial filesystem. -/
def execute_step (env : Env) (project : String)
    (function : Option String) (function_id : Option String)
    (workflow : Option String) (workflow_id : Option String)
    (action : Option String)
    (jsonprops : Option (List (String × String)))
    (inputs : Option (List (String × String)))
    (outputs : Option (List (String × String)))
    (parameters : Option (List (String × String)))
    (fs : FS) : StepOutcome :=
  let kwargs := build_exec_kwargs jsonprops inputs outputs parameters
  match resolve_and_launch env project function function_id workflow workflow_id
      action kwargs with
  | .noEntity => .exitOne fs []
  | .raised e => .uncaught e fs []
  | .launched run =>
    match wait_loop run.state run.refreshes with
    | none => .hangs
    | some fe => after_wait run fe.1 fs

/-- A backend in which every project lookup succeeds and both
`get_function` and `get_workflow` resolve to entities whose `run`
returns the fixed run handle `r`. -/
def envOf (r : RunHandle) : Env :=
  { get_project := fun _ => .ok
      { get_function := fun _ _ => .ok { run := fun _ _ => .ok r },
        get_workflow := fun _ _ => .ok { run := fun _ _ => .ok r } } }

/-- A COMPLETED run whose outputs contain the unrecognized value 42
ahead of a perfectly good string output. -/
def runBadOutput : RunHandle :=
  { id := "r1", state := State.COMPLETED, refreshes := [], hasOutputs := true,
    outputs := [("d", .pyint 42), ("a", .pystr "s")] }

/-- A COMPLETED run whose outputs contain a dict without a `"key"`
field. -/
def runDictNoKey : RunHandle :=
  { id := "r4", state := State.COMPLETED, refreshes := [], hasOutputs := true,
    outputs := [("d", .pydict [("notkey", "1")])] }

/-- A RUNNING run whose next refresh reports ERROR. -/
def runToError : RunHandle :=
  { id := "r7", state := State.RUNNING, refreshes := [State.ERROR],
    hasOutputs := true, outputs := [] }

/-- A COMPLETED run with the single output `{"x": "v"}`. -/
def runGoodOutput : RunHandle :=
  { id := "r8", state := State.COMPLETED, refreshes := [], hasOutputs := true,
    outputs := [("x", .pystr "v")] }

/-- A COMPLETED run with no outputs attribute: the success path a
workflow execution would take, were the resolved entity actually run. -/
def runPlain : RunHandle :=
  { id := "rw", state := State.COMPLETED, refreshes := [], hasOutputs := false,
    outputs := [] }

/-- A backend whose `get_workflow` succeeds with an entity whose `run`
returns `runPlain`, while `get_function` fails. -/
def envWf : Env :=
  { get_project := fun _ => .ok
      { get_function := fun _ _ => .error (.other "function not found"),
        get_workflow := fun _ _ => .ok { run := fun _ _ => .ok runPlain } } }

/-- A symlink environment in which every path resolves to a location
outside the artifacts directory. -/
def outsideLinks : AbsPath → AbsPath := fun _ => ["etc", "passwd"]

/-- The key `"."`, whose joined absolute path is `KFP_ARTIFACTS_DIR`
itself. -/
def dotKey : RawPath := ⟨false, ["."]⟩

/-- Modelled from the words of claim C6 / spec §4.2: the Export Record
of an outputs mapping — for each property `p`, the entry keyed
`"entity_" + p` whose value is the value itself when it is a string,
the entity's `key` when it is an entity, or the mapping's `"key"` field
when it is a mapping containing one (other pairs yield no entry). -/
def claimed_export_record : List (String × OutVal) → List (String × String)
  | [] => []
  | (p, v) :: rest =>
    match v with
    | .pystr s => ("entity_" ++ p, s) :: claimed_export_record rest
    | .entity k => ("entity_" ++ p, k) :: claimed_export_record rest
    | .pydict fields =>
      match fields.lookup "key" with
      | some kv => ("entity_" ++ p, kv) :: claimed_export_record rest
      | none => claimed_export_record rest
    | .pyint _ => claimed_export_record rest

/-! ### Helper lemmas -/

/-- `commonpath base r` equals `base` exactly when `base` is a
segment-wise ancestor-or-self of `r`. -/
theorem commonpath_eq_iff (base r : AbsPath) :
    commonpath base r = base ↔ base.isPrefixOf r = true := by
  induction base generalizing r with
  | nil => cases r <;> simp [commonpath, List.isPrefixOf]
  | cons a as ih =>
    cases r with
    | nil => simp [commonpath, List.isPrefixOf]
    | cons b bs =>
      by_cases hab : a = b
      · subst hab
        simp [commonpath, List.isPrefixOf, ih]
      · simp [commonpath, List.isPrefixOf, hab, Ne.symm hab]

/-- With `is_symlink = False`, the guard accepts exactly the filepaths
whose lexical absolute path has `base` as ancestor-or-self; the symlink
environment is irrelevant. -/
theorem is_safe_path_eq (links : AbsPath → AbsPath) (base fp : AbsPath) :
    _is_safe_path links base fp false = base.isPrefixOf (abspath fp) := by
  show (base == commonpath base (abspath fp)) = base.isPrefixOf (abspath fp)
  cases hb : base.isPrefixOf (abspath fp) with
  | true =>
    rw [(commonpath_eq_iff base (abspath fp)).mpr hb]
    exact beq_self_eq_true base
  | false =>
    refine beq_eq_false_iff_ne.mpr fun hc => ?_
    have ht := (commonpath_eq_iff base (abspath fp)).mp hc.symm
    rw [hb] at ht
    exact Bool.false_ne_true ht

/-- A key whose joined path resolves to a single plain segment directly
under the artifacts directory is written: the guard passes, the open
succeeds, and the file content is exactly the value. -/
theorem write_output_flat (fs : FS) (k : RawPath) (s : Seg) (v : String)
    (h : abspath (os_path_join KFP_ARTIFACTS_DIR k) = KFP_ARTIFACTS_DIR ++ [s]) :
    _write_output fs k v =
      (.ok (fsWrite fs (KFP_ARTIFACTS_DIR ++ [s]) v),
       [.infoWriting (KFP_ARTIFACTS_DIR ++ [s]) v,
        .debugStat (KFP_ARTIFACTS_DIR ++ [s]) v.utf8ByteSize]) := by
  have hsafe : _is_safe_path noLinks KFP_ARTIFACTS_DIR
      (os_path_join KFP_ARTIFACTS_DIR k) false = true := by
    rw [is_safe_path_eq, h]
    simp [KFP_ARTIFACTS_DIR, List.isPrefixOf]
  simp only [_write_output, hsafe, Bool.not_true, Bool.false_eq_true, if_false, h]
  simp [openWrite, KFP_ARTIFACTS_DIR, List.take]

/-- `try_write_output` either leaves the filesystem unchanged or
performs a single `fsWrite`. -/
theorem try_write_output_cases (fs : FS) (k : RawPath) (v : String) :
    try_write_output fs k v = fs ∨
    ∃ p, try_write_output fs k v = fsWrite fs p v := by
  unfold try_write_output _write_output openWrite
  by_cases hs : _is_safe_path noLinks KFP_ARTIFACTS_DIR
      (os_path_join KFP_ARTIFACTS_DIR k) false
  · simp only [hs, Bool.not_true, Bool.false_eq_true, if_false]
    by_cases h1 : abspath (os_path_join KFP_ARTIFACTS_DIR k) = KFP_ARTIFACTS_DIR
    · simp [h1]
    · by_cases h2 : KFP_ARTIFACTS_DIR.length + 1 =
          (abspath (os_path_join KFP_ARTIFACTS_DIR k)).length ∧
          (abspath (os_path_join KFP_ARTIFACTS_DIR k)).take KFP_ARTIFACTS_DIR.length =
            KFP_ARTIFACTS_DIR
      · simp only [h1, if_false, h2, if_true]
        exact Or.inr ⟨_, rfl⟩
      · simp [h1, h2]
  · simp [hs]

/-- `fsWrite` never deletes a file. -/
theorem fsWrite_isSome (fs : FS) (p q : AbsPath) (v : String)
    (h : (fs q).isSome = true) : (fsWrite fs p v q).isSome = true := by
  unfold fsWrite
  split <;> simp [h]

/-- A swallowed write attempt never deletes an existing file. -/
theorem try_write_output_isSome (fs : FS) (k : RawPath) (v : String) (q : AbsPath)
    (h : (fs q).isSome = true) : (try_write_output fs k v q).isSome = true := by
  rcases try_write_output_cases fs k v with h1 | ⟨p, h1⟩ <;> rw [h1]
  · exact h
  · exact fsWrite_isSome fs p q v h

/-- The export loop never deletes an existing file. -/
theorem write_results_isSome (l : List (String × String)) (fs : FS) (q : AbsPath)
    (h : (fs q).isSome = true) : ((write_results fs l).1 q).isSome = true := by
  induction l generalizing fs with
  | nil => simpa [write_results] using h
  | cons kv rest ih =>
    obtain ⟨k, v⟩ := kv
    simp only [write_results]
    exact ih _ (try_write_output_isSome _ _ _ _ h)

/-- Writing `run_id` always succeeds (the key is safe and flat). -/
theorem try_write_output_run_id (fs : FS) (v : String) :
    try_write_output fs (parseKey "run_id") v =
      fsWrite fs (KFP_ARTIFACTS_DIR ++ ["run_id"]) v := rfl

/-- On an outputs mapping whose values all have a recognized shape, the
`results` loop succeeds and produces exactly the claimed Export
Record. -/
theorem build_results_spec (outs : List (String × OutVal))
    (h : ∀ pv ∈ outs, recognized pv.2 = true) :
    build_results outs = .ok (claimed_export_record outs) := by
  induction outs with
  | nil => rfl
  | cons pv rest ih =>
    obtain ⟨p, v⟩ := pv
    have hv : recognized v = true := h (p, v) (List.mem_cons_self _ _)
    have hrest := ih (fun x hx => h x (List.mem_cons_of_mem _ hx))
    cases v with
    | pystr s => simp [build_results, normalize_value, claimed_export_record, hrest]
    | entity k => simp [build_results, normalize_value, claimed_export_record, hrest]
    | pydict fields =>
      cases hl : fields.lookup "key" with
      | some kv =>
        simp [build_results, normalize_value, hl, claimed_export_record, hrest]
      | none => simp [recognized, normalize_value, hl] at hv
    | pyint n => simp [recognized, normalize_value] at hv

/-- A terminal current state stops the loop at once, with no sleep and
no refresh. -/
theorem wait_loop_finished (s : String) (stream : List String)
    (h : _is_finished s = true) : wait_loop s stream = some (s, []) := by
  unfold wait_loop
  rw [h]
  rfl

/-- A non-terminal current state sleeps 5 seconds, refreshes, and
continues with the next delivered state. -/
theorem wait_loop_not_finished (s s1 : String) (rest : List String)
    (h : _is_finished s = false) :
    wait_loop s (s1 :: rest) =
      (wait_loop s1 rest).map fun q => (q.1, .sleepSecs 5 :: .refreshed s1 :: q.2) := by
  conv_lhs => unfold wait_loop
  rw [h]
  rfl

/-- The state the loop stops in is always terminal. -/
theorem wait_loop_terminal (s : String) (stream : List String) (fin : String)
    (evs : List WaitEv) (h : wait_loop s stream = some (fin, evs)) :
    _is_finished fin = true := by
  induction stream generalizing s fin evs with
  | nil =>
    by_cases hf : _is_finished s = true
    · rw [wait_loop_finished s [] hf] at h
      simp only [Option.some.injEq, Prod.mk.injEq] at h
      rw [← h.1]
      exact hf
    · have hf1 : _is_finished s = false := by simpa using hf
      unfold wait_loop at h
      rw [hf1] at h
      simp at h
  | cons s1 rest ih =>
    by_cases hf : _is_finished s = true
    · rw [wait_loop_finished s _ hf] at h
      simp only [Option.some.injEq, Prod.mk.injEq] at h
      rw [← h.1]
      exact hf
    · have hf1 : _is_finished s = false := by simpa using hf
      rw [wait_loop_not_finished s s1 rest hf1] at h
      cases hw : wait_loop s1 rest with
      | none => rw [hw] at h; simp at h
      | some q =>
        rw [hw] at h
        simp only [Option.map_some', Option.some.injEq, Prod.mk.injEq] at h
        rw [← h.1]
        exact ih s1 q.1 q.2 (by rw [hw])

/-- One-step unfolding of `execute_step` into its phases. -/
theorem execute_step_eq (env : Env) (project : String)
    (function function_id workflow workflow_id action : Option String)
    (jsonprops inputs outputs parameters : Option (List (String × String)))
    (fs : FS) :
    execute_step env project function function_id workflow workflow_id action
        jsonprops inputs outputs parameters fs =
      match resolve_and_launch env project function function_id workflow workflow_id
          action (build_exec_kwargs jsonprops inputs outputs parameters) with
      | .noEntity => .exitOne fs []
      | .raised e => .uncaught e fs []
      | .launched run =>
        match wait_loop run.state run.refreshes with
        | none => .hangs
        | some fe => after_wait run fe.1 fs := rfl

/-! ### Claim theorems -/

/-- C1, counterexample.  The claim quantifies over every key whose
resolved absolute path is not a descendant of `KFP_ARTIFACTS_DIR` and
promises that `_write_output` then writes nothing and does not raise.
The key `"."` resolves to `KFP_ARTIFACTS_DIR` itself — not a descendant
of it — yet it passes the guard (`commonpath` equality is inclusive)
and `open("/tmp", "w")` raises `IsADirectoryError` out of
`_write_output` instead of the promised silent return. -/
theorem C1_counterexample :
    abspath (os_path_join KFP_ARTIFACTS_DIR dotKey) = KFP_ARTIFACTS_DIR ∧
    (_write_output emptyFS dotKey "v").1 = .error .isADirectoryError :=
  ⟨rfl, rfl⟩

/-- C1, amended: for every key whose joined absolute path does not have
`KFP_ARTIFACTS_DIR` as an ancestor-or-self (so in particular for every
path strictly outside the sandbox, such as `"../escape"`),
`_write_output` creates no file anywhere, raises nothing, and emits
exactly the path-traversal warning. -/
theorem C1_rejected_key_writes_nothing (k : RawPath) (v : String) (fs : FS)
    (h : KFP_ARTIFACTS_DIR.isPrefixOf
      (abspath (os_path_join KFP_ARTIFACTS_DIR k)) = false) :
    _write_output fs k v =
      (.ok fs, [.warnPathTraversal (os_path_join KFP_ARTIFACTS_DIR k) k]) := by
  have hs : _is_safe_path noLinks KFP_ARTIFACTS_DIR
      (os_path_join KFP_ARTIFACTS_DIR k) false = false := by
    rw [is_safe_path_eq]
    exact h
  simp [_write_output, hs]

/-- C1, witness: the claim's own example key `"../escape"`. -/
theorem C1_witness :
    _write_output emptyFS ⟨false, ["..", "escape"]⟩ "secret" =
      (.ok emptyFS,
       [.warnPathTraversal (os_path_join KFP_ARTIFACTS_DIR ⟨false, ["..", "escape"]⟩)
          ⟨false, ["..", "escape"]⟩]) :=
  C1_rejected_key_writes_nothing ⟨false, ["..", "escape"]⟩ "secret" emptyFS (by decide)

/-- C2, counterexample.  The claim promises that the output
normalization never raises on an unrecognized value, logs and skips it,
and still exports the remaining pairs.  On outputs
`{"d": 42, "a": "s"}` of a COMPLETED run, the normalization loop raises
`TypeError` (line 163 subscripts the `int`), the exception propagates
out of `execute_step` (process exit code 1), and no entity output is
exported — only the earlier `run_id` write happened. -/
theorem C2_counterexample :
    build_results [("d", OutVal.pyint 42), ("a", OutVal.pystr "s")] =
      .error .typeError ∧
    process_exit_code (execute_step (envOf runBadOutput) "p" (some "f") none none none
      (some "job") none none none none emptyFS) = some 1 ∧
    (execute_step (envOf runBadOutput) "p" (some "f") none none none
      (some "job") none none none none emptyFS).writeAttempts =
      [⟨parseKey "run_id", "r1"⟩] :=
  ⟨rfl, rfl, rfl⟩

/-- C2, amended: the normalization loop raises for every outputs
mapping containing a value of unrecognized shape (`TypeError` for a
non-subscriptable value such as 42, `KeyError` for a mapping without a
`"key"` field); the pair is not skipped and the exception fails the
step: concretely, on `runBadOutput` the step ends in an uncaught
`TypeError` with only `run_id` written. -/
theorem C2_unrecognized_raises :
    (∀ outs : List (String × OutVal),
      (∃ pv ∈ outs, recognized pv.2 = false) →
        ∃ e, build_results outs = .error e) ∧
    execute_step (envOf runBadOutput) "p" (some "f") none none none (some "job")
        none none none none emptyFS =
      .uncaught .typeError (fsWrite emptyFS (KFP_ARTIFACTS_DIR ++ ["run_id"]) "r1")
        [⟨parseKey "run_id", "r1"⟩] := by
  constructor
  · intro outs
    induction outs with
    | nil => intro h; simp at h
    | cons pv rest ih =>
      intro h
      obtain ⟨x, hx, hrec⟩ := h
      obtain ⟨p, v⟩ := pv
      cases hnv : normalize_value v with
      | error e => exact ⟨e, by simp [build_results, hnv]⟩
      | ok s =>
        rcases List.mem_cons.mp hx with heq | hmem
        · rw [heq] at hrec
          simp [recognized, hnv] at hrec
        · obtain ⟨e, he⟩ := ih ⟨x, hmem, hrec⟩
          refine ⟨e, ?_⟩
          simp [build_results, hnv, he]
  · rfl

/-- C2, witness: a singleton outputs mapping holding the value 42. -/
theorem C2_witness :
    ∃ e, build_results [("d", OutVal.pyint 42)] = .error e :=
  C2_unrecognized_raises.1 [("d", OutVal.pyint 42)]
    ⟨("d", OutVal.pyint 42), by decide⟩

/-- C3 (code bug).  The claim says the workflow branch triggers the
execution of the *resolved* workflow entity and obtains the run from
it.  In the source (lines 127–133) the resolved entity is assigned to
the variable `function` and never used; `.run` is invoked on the string
variable `workflow`, which raises `AttributeError`.  Here the backend
resolves `"wf"` to an entity whose `run` would return the COMPLETED run
`runPlain`, yet `execute_step` ends in an uncaught `AttributeError`
with nothing written. -/
theorem C3_workflow_runs_name_string :
    (∃ proj : Project, envWf.get_project "proj" = .ok proj ∧
      ∃ went : WorkflowEntity, proj.get_workflow "wf" none = .ok went ∧
        went.run "pipeline" (build_exec_kwargs none none none none) = .ok runPlain) ∧
    execute_step envWf "proj" none none (some "wf") none (some "pipeline")
        none none none none emptyFS = .uncaught .attributeError emptyFS [] :=
  ⟨⟨_, rfl, _, rfl, rfl⟩, rfl⟩

/-- C5: for a key that resolves to a single plain segment directly
under `KFP_ARTIFACTS_DIR` (in particular any flat traversal-free key),
`_write_output` succeeds, the file at `base/k` holds exactly the
written string, and a second write fully replaces the content. -/
theorem C5_flat_write_exact (k : RawPath) (s : Seg) (v1 v2 : String) (fs : FS)
    (h : abspath (os_path_join KFP_ARTIFACTS_DIR k) = KFP_ARTIFACTS_DIR ++ [s]) :
    ∃ fs1, (_write_output fs k v1).1 = .ok fs1 ∧
      fs1 (KFP_ARTIFACTS_DIR ++ [s]) = some v1 ∧
      ∃ fs2, (_write_output fs1 k v2).1 = .ok fs2 ∧
        fs2 (KFP_ARTIFACTS_DIR ++ [s]) = some v2 := by
  refine ⟨fsWrite fs (KFP_ARTIFACTS_DIR ++ [s]) v1, ?_, ?_,
    fsWrite (fsWrite fs (KFP_ARTIFACTS_DIR ++ [s]) v1) (KFP_ARTIFACTS_DIR ++ [s]) v2,
    ?_, ?_⟩
  · rw [write_output_flat fs k s v1 h]
  · simp [fsWrite]
  · rw [write_output_flat _ k s v2 h]
  · simp [fsWrite]

/-- C5, witness: the key `"x"`, written twice. -/
theorem C5_witness :
    ∃ fs1, (_write_output emptyFS ⟨false, ["x"]⟩ "a").1 = .ok fs1 ∧
      fs1 (KFP_ARTIFACTS_DIR ++ ["x"]) = some "a" ∧
      ∃ fs2, (_write_output fs1 ⟨false, ["x"]⟩ "b").1 = .ok fs2 ∧
        fs2 (KFP_ARTIFACTS_DIR ++ ["x"]) = some "b" :=
  C5_flat_write_exact ⟨false, ["x"]⟩ "x" "a" "b" emptyFS (by decide)

/-- C6: on an outputs mapping all of whose values have one of the three
recognized shapes, the normalization loop produces exactly the Export
Record described by the claim: for each property `p`, the entry keyed
`"entity_" + p` holding the string itself, the entity's `key`, or the
mapping's `"key"` field. -/
theorem C6_export_record (outs : List (String × OutVal))
    (h : ∀ pv ∈ outs, recognized pv.2 = true) :
    build_results outs = .ok (claimed_export_record outs) :=
  build_results_spec outs h

/-- C6, witness: the claim's example
`{"a": "s", "b": EntityWithKey("ent://x"), "c": {"key": "k3"}}`. -/
theorem C6_witness :
    build_results [("a", OutVal.pystr "s"), ("b", OutVal.entity "ent://x"),
        ("c", OutVal.pydict [("key", "k3")])] =
      .ok [("entity_a", "s"), ("entity_b", "ent://x"), ("entity_c", "k3")] :=
  (C6_export_record
    [("a", OutVal.pystr "s"), ("b", OutVal.entity "ent://x"),
     ("c", OutVal.pydict [("key", "k3")])] (by decide)).trans rfl

/-- C9, counterexample.  The claim says `_is_safe_path` accepts only
paths strictly inside `output_base_dir` and rejects a resolved path
equal to the base itself, so that `_write_output` never proceeds to
open it.  In fact `base == commonpath(base, resolved)` also holds when
`resolved = base`: the guard returns `True` on the base directory, and
on the key `"."` (which resolves to the base) `_write_output` passes
the guard and proceeds to the open — its log trace is the "Writing
artifact output" line, not the traversal warning. -/
theorem C9_counterexample :
    _is_safe_path noLinks KFP_ARTIFACTS_DIR KFP_ARTIFACTS_DIR false = true ∧
    abspath (os_path_join KFP_ARTIFACTS_DIR dotKey) = KFP_ARTIFACTS_DIR ∧
    (_write_output emptyFS dotKey "w").2 = [.infoWriting KFP_ARTIFACTS_DIR "w"] :=
  ⟨rfl, rfl, rfl⟩

/-- C9, amended: `_is_safe_path` (with the default `is_symlink=False`)
accepts exactly the filepaths whose lexical absolute path has `base` as
an ancestor-or-self — inclusively, so the base directory itself is
accepted, and the open is then attempted (and fails at the OS level on
the directory). -/
theorem C9_guard_inclusive (links : AbsPath → AbsPath) (base fp : AbsPath) :
    _is_safe_path links base fp false = base.isPrefixOf (abspath fp) :=
  is_safe_path_eq links base fp

/-- C10: with its default third argument `is_symlink = False`,
`_is_safe_path` decides acceptance purely from the lexical absolute
path — the verdict does not depend on the symlink-resolution
environment at all, and two filepaths with the same lexical absolute
form always get the same verdict. -/
theorem C10_purely_lexical (links links1 : AbsPath → AbsPath) (base fp fp1 : AbsPath) :
    (_is_safe_path links base fp false = _is_safe_path links1 base fp false) ∧
    (abspath fp = abspath fp1 →
      _is_safe_path links base fp false = _is_safe_path links base fp1 false) := by
  refine ⟨rfl, fun h => ?_⟩
  rw [is_safe_path_eq, is_safe_path_eq, h]

/-- C10, witness: `/tmp/lnk` under a symlink environment that resolves
everything to `/etc/passwd` — the verdict matches the one on the
lexically identical `/tmp/./lnk` and is `true`, the symlink target
notwithstanding. -/
theorem C10_witness :
    (_is_safe_path outsideLinks KFP_ARTIFACTS_DIR ["tmp", "lnk"] false =
      _is_safe_path outsideLinks KFP_ARTIFACTS_DIR ["tmp", ".", "lnk"] false) ∧
    _is_safe_path outsideLinks KFP_ARTIFACTS_DIR ["tmp", "lnk"] false = true ∧
    outsideLinks ["tmp", "lnk"] = ["etc", "passwd"] :=
  ⟨(C10_purely_lexical outsideLinks outsideLinks KFP_ARTIFACTS_DIR
      ["tmp", "lnk"] ["tmp", ".", "lnk"]).2 (by decide),
   rfl, rfl⟩

/-- C7: the wait loop exits exactly in the terminal states
{COMPLETED, ERROR, STOPPED} (its final state is always terminal, a
terminal current state exits at once, and any other state sleeps 5
seconds and refreshes before polling again); on the observed state
sequence [RUNNING, RUNNING, COMPLETED] it ends with COMPLETED after a
trace of two sleep/refresh rounds (three polls in total); on a sequence
ending in ERROR it leaves the loop with ERROR, and the step's process
exit code is 1. -/
theorem C7_wait_loop_terminal_states :
    (∀ s, _is_finished s = true ↔
      (s = State.COMPLETED ∨ s = State.ERROR ∨ s = State.STOPPED)) ∧
    (∀ s stream fin evs, wait_loop s stream = some (fin, evs) →
      _is_finished fin = true) ∧
    (∀ s stream, _is_finished s = true → wait_loop s stream = some (s, [])) ∧
    (∀ s s1 rest, _is_finished s = false →
      wait_loop s (s1 :: rest) =
        (wait_loop s1 rest).map fun q =>
          (q.1, .sleepSecs 5 :: .refreshed s1 :: q.2)) ∧
    (wait_loop State.RUNNING [State.RUNNING, State.COMPLETED] =
      some (State.COMPLETED,
        [.sleepSecs 5, .refreshed State.RUNNING,
         .sleepSecs 5, .refreshed State.COMPLETED])) ∧
    (wait_loop State.RUNNING [State.ERROR] =
      some (State.ERROR, [.sleepSecs 5, .refreshed State.ERROR])) ∧
    process_exit_code (execute_step (envOf runToError) "p" (some "f") none none none
      (some "job") none none none none emptyFS) = some 1 :=
  ⟨fun s => by
    simp [_is_finished, State.COMPLETED, State.ERROR, State.STOPPED, or_assoc],
   wait_loop_terminal,
   wait_loop_finished,
   wait_loop_not_finished,
   rfl, rfl, rfl⟩

/-- C7, witness: a STOPPED run exits the loop immediately. -/
theorem C7_witness :
    wait_loop State.STOPPED [State.RUNNING] = some (State.STOPPED, []) ∧
    _is_finished State.ERROR = true :=
  ⟨C7_wait_loop_terminal_states.2.2.1 State.STOPPED [State.RUNNING] (by decide),
   (C7_wait_loop_terminal_states.1 State.ERROR).mpr (Or.inr (Or.inl rfl))⟩

/-- C8: in every execution that obtains a run and reaches a terminal
state — whatever that state is, and whether or not outputs exist — the
`run_id` write is the first `_write_output` invocation, and the final
filesystem contains a file named `run_id` (that write itself cannot
fail: the key is safe and flat). -/
theorem C8_run_id_first (env : Env) (project : String)
    (function function_id workflow workflow_id action : Option String)
    (jsonprops inputs outputs parameters : Option (List (String × String)))
    (fs : FS) (run : RunHandle) (fin : String) (evs : List WaitEv)
    (hres : resolve_and_launch env project function function_id workflow workflow_id
      action (build_exec_kwargs jsonprops inputs outputs parameters) = .launched run)
    (hwait : wait_loop run.state run.refreshes = some (fin, evs)) :
    (execute_step env project function function_id workflow workflow_id action
        jsonprops inputs outputs parameters fs).writeAttempts.head? =
      some ⟨parseKey "run_id", run.id⟩ ∧
    ∃ f, (execute_step env project function function_id workflow workflow_id action
        jsonprops inputs outputs parameters fs).finalFs = some f ∧
      (f (KFP_ARTIFACTS_DIR ++ ["run_id"])).isSome = true := by
  have hstep : execute_step env project function function_id workflow workflow_id action
      jsonprops inputs outputs parameters fs = after_wait run fin fs := by
    simp only [execute_step_eq, hres, hwait]
  rw [hstep]
  unfold after_wait
  rw [try_write_output_run_id]
  have hbase : ((fsWrite fs (KFP_ARTIFACTS_DIR ++ ["run_id"]) run.id)
      (KFP_ARTIFACTS_DIR ++ ["run_id"])).isSome = true := by
    simp [fsWrite]
  by_cases hc : _is_complete fin = true
  · rw [hc]
    simp only [if_true]
    by_cases ho : run.hasOutputs = true
    · rw [ho]
      simp only [if_true]
      cases hb : build_results run.outputs with
      | error e =>
        exact ⟨rfl, _, rfl, hbase⟩
      | ok results =>
        refine ⟨?_, _, rfl, write_results_isSome results _ _ hbase⟩
        simp [StepOutcome.writeAttempts]
    · have ho1 : run.hasOutputs = false := by simpa using ho
      rw [ho1]
      exact ⟨rfl, _, rfl, hbase⟩
  · have hc1 : _is_complete fin = false := by simpa using hc
    rw [hc1]
    exact ⟨rfl, _, rfl, hbase⟩

/-- C8, witness: a run that ends in ERROR (the failure path) still gets
its `run_id` written first, and the file exists afterwards. -/
theorem C8_witness :
    ((execute_step (envOf runToError) "p" (some "f") none none none (some "job")
        none none none none emptyFS).writeAttempts.head? =
      some ⟨parseKey "run_id", runToError.id⟩) ∧
    ∃ f, (execute_step (envOf runToError) "p" (some "f") none none none (some "job")
        none none none none emptyFS).finalFs = some f ∧
      (f (KFP_ARTIFACTS_DIR ++ ["run_id"])).isSome = true :=
  C8_run_id_first (envOf runToError) "p" (some "f") none none none (some "job")
    none none none none emptyFS runToError State.ERROR
    [.sleepSecs 5, .refreshed State.ERROR] rfl rfl

/-- C4, counterexample.  The claim states the exit code is 0 exactly
when the run reaches COMPLETED.  On `runDictNoKey` the run reaches
COMPLETED with zero refreshes, yet the process exit code is 1: the
output normalization raises `KeyError` on the dict without a `"key"`
field, which the claim's enumeration of exit-1 cases does not admit. -/
theorem C4_counterexample :
    wait_loop runDictNoKey.state runDictNoKey.refreshes =
      some (State.COMPLETED, []) ∧
    process_exit_code (execute_step (envOf runDictNoKey) "p" (some "f") none none none
      (some "job") none none none none emptyFS) = some 1 :=
  ⟨rfl, rfl⟩

/-- C4, amended: the process exit code is 1 when neither a function nor
a workflow is given; a resolution-phase exception (entity lookup
failure, or the `TypeError` from a missing action in the function
branch) makes the step fail with that exception immediately, the
filesystem untouched and no write attempted (no run is created); a
terminal state ERROR or STOPPED yields exit code 1; a COMPLETED run
whose outputs are absent or all of recognized shape yields exit code 0;
and exit code 0 occurs only when the launched run's wait loop ended in
COMPLETED. -/
theorem C4_exit_codes :
    (∀ env project function_id workflow_id action jsonprops inputs outputs parameters fs,
      process_exit_code (execute_step env project none function_id none workflow_id
        action jsonprops inputs outputs parameters fs) = some 1) ∧
    (∀ env project function function_id workflow workflow_id action
        jsonprops inputs outputs parameters fs e,
      resolve_and_launch env project function function_id workflow workflow_id action
          (build_exec_kwargs jsonprops inputs outputs parameters) = .raised e →
      execute_step env project function function_id workflow workflow_id action
          jsonprops inputs outputs parameters fs = .uncaught e fs []) ∧
    (∀ env project fname function_id workflow workflow_id kwargs proj,
      env.get_project project = .ok proj →
      resolve_and_launch env project (some fname) function_id workflow workflow_id
        none kwargs = .raised .typeError) ∧
    (∀ env project function function_id workflow workflow_id action
        jsonprops inputs outputs parameters fs run fin evs,
      resolve_and_launch env project function function_id workflow workflow_id action
          (build_exec_kwargs jsonprops inputs outputs parameters) = .launched run →
      wait_loop run.state run.refreshes = some (fin, evs) →
      (fin = State.ERROR ∨ fin = State.STOPPED) →
      process_exit_code (execute_step env project function function_id workflow
        workflow_id action jsonprops inputs outputs parameters fs) = some 1) ∧
    (∀ env project function function_id workflow workflow_id action
        jsonprops inputs outputs parameters fs run evs,
      resolve_and_launch env project function function_id workflow workflow_id action
          (build_exec_kwargs jsonprops inputs outputs parameters) = .launched run →
      wait_loop run.state run.refreshes = some (State.COMPLETED, evs) →
      (run.hasOutputs = false ∨ ∀ pv ∈ run.outputs, recognized pv.2 = true) →
      process_exit_code (execute_step env project function function_id workflow
        workflow_id action jsonprops inputs outputs parameters fs) = some 0) ∧
    (∀ env project function function_id workflow workflow_id action
        jsonprops inputs outputs parameters fs,
      process_exit_code (execute_step env project function function_id workflow
        workflow_id action jsonprops inputs outputs parameters fs) = some 0 →
      ∃ run fin evs,
        resolve_and_launch env project function function_id workflow workflow_id action
          (build_exec_kwargs jsonprops inputs outputs parameters) = .launched run ∧
        wait_loop run.state run.refreshes = some (fin, evs) ∧
        fin = State.COMPLETED) := by
  refine ⟨?_, ?_, ?_, ?_, ?_, ?_⟩
  · intro env project function_id workflow_id action jsonprops inputs outputs parameters fs
    rw [execute_step_eq]
    cases hp : env.get_project project with
    | error e => simp [resolve_and_launch, hp, process_exit_code]
    | ok proj => simp [resolve_and_launch, hp, process_exit_code]
  · intro env project function function_id workflow workflow_id action
      jsonprops inputs outputs parameters fs e hres
    rw [execute_step_eq, hres]
  · intro env project fname function_id workflow workflow_id kwargs proj hp
    simp [resolve_and_launch, hp]
  · intro env project function function_id workflow workflow_id action
      jsonprops inputs outputs parameters fs run fin evs hres hwait hfin
    simp only [execute_step_eq, hres, hwait]
    have hnc : _is_complete fin = false := by
      rcases hfin with rfl | rfl <;> rfl
    unfold after_wait
    rw [hnc]
    rfl
  · intro env project function function_id workflow workflow_id action
      jsonprops inputs outputs parameters fs run evs hres hwait hout
    simp only [execute_step_eq, hres, hwait]
    unfold after_wait
    rw [show _is_complete State.COMPLETED = true from rfl]
    simp only [if_true]
    rcases hout with ho | ho
    · rw [ho]
      rfl
    · cases hb : run.hasOutputs with
      | false => rfl
      | true =>
        rw [build_results_spec run.outputs ho]
        rfl
  · intro env project function function_id workflow workflow_id action
      jsonprops inputs outputs parameters fs h
    rw [execute_step_eq] at h
    cases hres : resolve_and_launch env project function function_id workflow workflow_id
        action (build_exec_kwargs jsonprops inputs outputs parameters) with
    | noEntity => simp only [hres] at h; simp [process_exit_code] at h
    | raised e => simp only [hres] at h; simp [process_exit_code] at h
    | launched run =>
      simp only [hres] at h
      cases hw : wait_loop run.state run.refreshes with
      | none => simp only [hw] at h; simp [process_exit_code] at h
      | some fe =>
        simp only [hw] at h
        refine ⟨run, fe.1, fe.2, rfl, by rw [hw], ?_⟩
        unfold after_wait at h
        by_cases hc : _is_complete fe.1 = true
        · have hc2 : (fe.1 == State.COMPLETED) = true := hc
          exact beq_iff_eq.mp hc2
        · have hc1 : _is_complete fe.1 = false := by simpa using hc
          rw [hc1] at h
          simp [process_exit_code] at h

/-- C4, witness: a COMPLETED run with the single recognized output
`{"x": "v"}` exits 0. -/
theorem C4_witness :
    process_exit_code (execute_step (envOf runGoodOutput) "p" (some "f") none none none
      (some "job") none none none none emptyFS) = some 0 :=
  C4_exit_codes.2.2.2.2.1 (envOf runGoodOutput) "p" (some "f") none none none
    (some "job") none none none none emptyFS runGoodOutput [] rfl rfl
    (Or.inr (by decide))

end KfpStep
